import Mathlib

/-!
Shallow embedding of the gpu-monitor repository (crates gpu-monitor-core and
gpu-monitor-cli) for checking its natural-language specification.

Machine integers from the Rust source are modelled as `Nat` (all the
arithmetic performed by the embedded code is overflow-free except where an
explicit `% 2 ^ 16` marks a `usize → u16` cast).  Fallible NVML queries are
modelled as `Except NvmlErr _` values supplied as inputs; external effects
(process-name resolution from /proc) are function parameters.  `f32` values
are modelled by `F32`, exact rational arithmetic extended with infinities and
NaN; the rounding of IEEE single precision is abstracted away, which is
faithful to every claim checked here (none depends on rounding).
-/

namespace GpuMon

/-- An opaque NVML error value (the payload of `nvml_wrapper::error::NvmlError`). -/
structure NvmlErr where
  code : Nat
deriving DecidableEq

/-- `gpu_monitor_core::error::Error` (src/crates/gpu-monitor-core/src/error.rs). -/
inductive Error where
  | NvmlInit (msg : String)
  | Nvml (e : NvmlErr)
  | NoDevices
  | InvalidDevice (index : Nat)
  | ProcessInfoErr (msg : String)
  | IoError
  | Serialization
deriving DecidableEq

/-- `ProcessType` (src/crates/gpu-monitor-core/src/process.rs). -/
inductive ProcessType where
  | Graphics
  | Compute
  | Mixed
  | Unknown
deriving DecidableEq

/-- `GpuProcess` (src/crates/gpu-monitor-core/src/process.rs). -/
structure GpuProcess where
  pid : Nat
  name : String
  gpu_memory : Nat
  process_type : ProcessType
deriving DecidableEq

/-- `MemoryInfo` (src/crates/gpu-monitor-core/src/device.rs). -/
structure MemoryInfo where
  total : Nat
  used : Nat
  free : Nat
deriving DecidableEq

/-- Model of an `f32` value: an exact rational, a signed infinity, or NaN.
IEEE rounding is abstracted (values are kept exact). -/
inductive F32 where
  | fin : ℚ → F32
  | inf : Bool → F32
  | nan : F32
deriving DecidableEq

namespace F32

/-- IEEE-style division on the `f32` model.  `fin a / fin 0` is NaN when
`a = 0` and a signed infinity otherwise; NaN propagates. -/
def div : F32 → F32 → F32
  | nan, _ => nan
  | _, nan => nan
  | inf _, inf _ => nan
  | inf s, fin b => inf (s != decide (b < 0))
  | fin _, inf _ => fin 0
  | fin a, fin b =>
    if b = 0 then (if a = 0 then nan else inf (decide (a < 0))) else fin (a / b)

/-- IEEE-style multiplication on the `f32` model; NaN propagates and
`0 * ∞` is NaN. -/
def mul : F32 → F32 → F32
  | nan, _ => nan
  | _, nan => nan
  | inf s, inf t => inf (s != t)
  | inf s, fin b => if b = 0 then nan else inf (s != decide (b < 0))
  | fin a, inf t => if a = 0 then nan else inf (t != decide (a < 0))
  | fin a, fin b => fin (a * b)

/-- The Rust `as u64` cast from `f32`: truncation toward zero, saturating at
the `u64` range, NaN mapped to 0. -/
def toU64 : F32 → Nat
  | nan => 0
  | inf s => if s then 0 else 2 ^ 64 - 1
  | fin q => if q < 0 then 0 else min q.floor.toNat (2 ^ 64 - 1)

end F32

/-- `MemoryInfo::usage_percent` (src/crates/gpu-monitor-core/src/device.rs
lines 38-45): `if total == 0 { 0.0 } else { (used as f32 / total as f32) * 100.0 }`. -/
def MemoryInfo.usage_percent (m : MemoryInfo) : F32 :=
  if m.total = 0 then F32.fin 0
  else F32.mul (F32.div (F32.fin m.used) (F32.fin m.total)) (F32.fin 100)

/-- `nvml_wrapper::enums::device::UsedGpuMemory`. -/
inductive UsedGpuMemory where
  | used : Nat → UsedGpuMemory
  | unavailable : UsedGpuMemory
deriving DecidableEq

/-- An entry of `running_compute_processes` / `running_graphics_processes`
(nvml `ProcessInfo`): a PID plus its reported GPU memory. -/
structure ProcSample where
  pid : Nat
  used_gpu_memory : UsedGpuMemory
deriving DecidableEq

/-- `extract_gpu_memory` (src/crates/gpu-monitor-core/src/monitor.rs
lines 207-213): `Used(bytes) => bytes, Unavailable => 0`. -/
def extract_gpu_memory : UsedGpuMemory → Nat
  | .used bytes => bytes
  | .unavailable => 0

/-- Rust `Result::unwrap_or` on the `Except` model. -/
def exceptD : Except ε α → α → α
  | .ok a, _ => a
  | .error _, d => d

/-- `DeviceInfo` (src/crates/gpu-monitor-core/src/device.rs). -/
structure DeviceInfo where
  index : Nat
  name : String
  uuid : String
  pci_bus_id : String
  driver_version : String
  cuda_version : Option String
  power_limit : Nat
  power_limit_max : Nat
deriving DecidableEq

/-- `GpuMetrics` (src/crates/gpu-monitor-core/src/metrics.rs). -/
structure GpuMetrics where
  gpu_utilization : Nat
  memory_utilization : Nat
  encoder_utilization : Nat
  decoder_utilization : Nat
  temperature : Nat
  power_usage : Nat
  fan_speed : Option Nat
  clock_graphics : Nat
  clock_memory : Nat
  clock_sm : Nat
deriving DecidableEq

/-- `GpuInfo` (src/crates/gpu-monitor-core/src/lib.rs): one device snapshot. -/
structure GpuInfo where
  device : DeviceInfo
  metrics : GpuMetrics
  memory : MemoryInfo
  processes : List GpuProcess
deriving DecidableEq

/-- The name of one PID as shown in the process table:
`get_process_name(pid).unwrap_or_else(|| "unknown".to_string())`
(src/crates/gpu-monitor-core/src/monitor.rs lines 167, 187-188).
`resolveName` stands for the external `/proc/{pid}/comm` lookup. -/
def resolvedName (resolveName : Nat → Option String) (pid : Nat) : String :=
  (resolveName pid).getD "unknown"

/-- The seeding loop of `get_gpu_processes` (monitor.rs lines 164-176):
every compute-process entry becomes a `GpuProcess` tagged `Compute`. -/
def seedCompute (resolveName : Nat → Option String) (cs : List ProcSample) :
    List GpuProcess :=
  cs.map fun c =>
    { pid := c.pid
      name := resolvedName resolveName c.pid
      gpu_memory := extract_gpu_memory c.used_gpu_memory
      process_type := ProcessType.Compute }

/-- `processes.iter_mut().find(|p| p.pid == proc.pid)` followed by the in-place
update (monitor.rs lines 183-185): the FIRST entry with the given PID is
retagged `Mixed` and its memory replaced by the max of old and new. -/
def updateFirst : List GpuProcess → Nat → Nat → List GpuProcess
  | [], _, _ => []
  | p :: rest, pid, mem =>
    if p.pid = pid then
      { p with process_type := ProcessType.Mixed,
               gpu_memory := max p.gpu_memory mem } :: rest
    else p :: updateFirst rest pid mem

/-- One iteration of the graphics-process loop of `get_gpu_processes`
(monitor.rs lines 179-197). -/
def mergeGraphicsOne (resolveName : Nat → Option String)
    (ps : List GpuProcess) (g : ProcSample) : List GpuProcess :=
  if ps.any (fun p => p.pid = g.pid) then
    updateFirst ps g.pid (extract_gpu_memory g.used_gpu_memory)
  else
    ps ++ [{ pid := g.pid
             name := resolvedName resolveName g.pid
             gpu_memory := extract_gpu_memory g.used_gpu_memory
             process_type := ProcessType.Graphics }]

/-- The merged (pre-sort) process list of `get_gpu_processes`
(monitor.rs lines 162-197), for the case where both queries succeed. -/
def mergedProcesses (resolveName : Nat → Option String)
    (cs gs : List ProcSample) : List GpuProcess :=
  gs.foldl (mergeGraphicsOne resolveName) (seedCompute resolveName cs)

/-- `processes.sort_by(|a, b| b.gpu_memory.cmp(&a.gpu_memory))`
(monitor.rs line 200): Rust `sort_by` is a stable sort, modelled by the
stable `List.mergeSort` with the descending-by-memory order. -/
def sortProcesses (ps : List GpuProcess) : List GpuProcess :=
  ps.mergeSort fun a b => decide (b.gpu_memory ≤ a.gpu_memory)

/-- `GpuMonitor::get_gpu_processes` (monitor.rs lines 158-203).  The two
process queries are inputs; a failed query contributes nothing
(`if let Ok(...)`).  The function never returns an error. -/
def get_gpu_processes (resolveName : Nat → Option String)
    (computeRes graphicsRes : Except NvmlErr (List ProcSample)) :
    Except Error (List GpuProcess) :=
  let ps0 : List GpuProcess :=
    match computeRes with
    | .ok cs => seedCompute resolveName cs
    | .error _ => []
  let ps1 : List GpuProcess :=
    match graphicsRes with
    | .ok gs => gs.foldl (mergeGraphicsOne resolveName) ps0
    | .error _ => ps0
  Except.ok (sortProcesses ps1)

/-- `Utilization` as returned by `device.utilization_rates()`. -/
structure Utilization where
  gpu : Nat
  memory : Nat
deriving DecidableEq

/-- The results of the individual NVML queries issued by
`GpuMonitor::get_gpu_info` for one device handle.  Each field is the
outcome of one hardware query, fallible independently of the others. -/
structure DeviceQueries where
  name : Except NvmlErr String
  uuid : Except NvmlErr String
  pci_bus_id : Except NvmlErr String
  sys_driver_version : Except NvmlErr String
  sys_cuda_driver_version : Except NvmlErr Nat
  power_management_limit : Except NvmlErr Nat
  power_management_limit_constraints_max : Except NvmlErr Nat
  memory_info : Except NvmlErr MemoryInfo
  utilization_rates : Except NvmlErr Utilization
  encoder_utilization : Except NvmlErr Nat
  decoder_utilization : Except NvmlErr Nat
  temperature : Except NvmlErr Nat
  power_usage : Except NvmlErr Nat
  fan_speed : Except NvmlErr Nat
  clock_graphics : Except NvmlErr Nat
  clock_memory : Except NvmlErr Nat
  clock_sm : Except NvmlErr Nat
  running_compute_processes : Except NvmlErr (List ProcSample)
  running_graphics_processes : Except NvmlErr (List ProcSample)

/-- The CUDA version string `format!("{}.{}", v / 1000, (v % 1000) / 10)`
(monitor.rs lines 64-72). -/
def cudaVersionString (v : Nat) : String :=
  toString (v / 1000) ++ "." ++ toString ((v % 1000) / 10)

/-- `GpuMonitor::get_gpu_info` (monitor.rs lines 51-155).  `dev` is the
outcome of `self.nvml.device_by_index(index)`; each query propagated with
`?` is a match whose error case maps into `Error::Nvml` (the `From`
conversion of the source); the remaining queries degrade to defaults exactly
as the source does. -/
def get_gpu_info (resolveName : Nat → Option String) (index : Nat)
    (dev : Except NvmlErr DeviceQueries) : Except Error GpuInfo :=
  match dev with
  | .error e => Except.error (Error.Nvml e)
  | .ok q =>
  match q.name with
  | .error e => Except.error (Error.Nvml e)
  | .ok name =>
  match q.uuid with
  | .error e => Except.error (Error.Nvml e)
  | .ok uuid =>
  match q.pci_bus_id with
  | .error e => Except.error (Error.Nvml e)
  | .ok pci_bus_id =>
  match q.sys_driver_version with
  | .error e => Except.error (Error.Nvml e)
  | .ok driver_version =>
  let cuda_version := q.sys_cuda_driver_version.toOption.map cudaVersionString
  let power_limit := exceptD q.power_management_limit 0 / 1000
  let power_limit_max :=
    exceptD (q.power_management_limit_constraints_max.map fun c => c / 1000)
      power_limit
  let device_info : DeviceInfo :=
    { index, name, uuid, pci_bus_id, driver_version, cuda_version,
      power_limit, power_limit_max }
  match q.memory_info with
  | .error e => Except.error (Error.Nvml e)
  | .ok memory =>
  match q.utilization_rates with
  | .error e => Except.error (Error.Nvml e)
  | .ok utilization =>
  let metrics : GpuMetrics :=
    { gpu_utilization := utilization.gpu
      memory_utilization := utilization.memory
      encoder_utilization := ((q.encoder_utilization.toOption).map id).getD 0
      decoder_utilization := ((q.decoder_utilization.toOption).map id).getD 0
      temperature := exceptD q.temperature 0
      power_usage := exceptD q.power_usage 0
      fan_speed := q.fan_speed.toOption
      clock_graphics := exceptD q.clock_graphics 0
      clock_memory := exceptD q.clock_memory 0
      clock_sm := exceptD q.clock_sm 0 }
  match get_gpu_processes resolveName
      q.running_compute_processes q.running_graphics_processes with
  | .error e => Except.error e
  | .ok processes =>
  Except.ok { device := device_info, metrics, memory, processes }

/-- The device loop of `GpuMonitor::get_all_gpu_info` (monitor.rs lines
43-47): build a snapshot for each index in turn, propagating the first
failure with `?`. -/
def buildDevices (resolveName : Nat → Option String)
    (device_by_index : Nat → Except NvmlErr DeviceQueries) :
    List Nat → Except Error (List GpuInfo)
  | [] => Except.ok []
  | i :: rest =>
    match get_gpu_info resolveName i (device_by_index i) with
    | .error e => Except.error e
    | .ok info =>
      match buildDevices resolveName device_by_index rest with
      | .error e => Except.error e
      | .ok infos => Except.ok (info :: infos)

/-- `GpuMonitor::get_all_gpu_info` (monitor.rs lines 37-48).
`device_count` is the outcome of the enumeration query and
`device_by_index i` the outcome of obtaining the handle for device `i`,
bundled with that device's per-field query results. -/
def get_all_gpu_info (resolveName : Nat → Option String)
    (device_count : Except NvmlErr Nat)
    (device_by_index : Nat → Except NvmlErr DeviceQueries) :
    Except Error (List GpuInfo) :=
  match device_count with
  | .error e => Except.error (Error.Nvml e)
  | .ok count =>
    if count = 0 then Except.error Error.NoDevices
    else buildDevices resolveName device_by_index (List.range count)

/-! ### The CLI application state (src/crates/gpu-monitor-cli/src/app.rs) -/

/-- `App` (app.rs lines 11-26), restricted to the fields the embedded
operations touch.  `process_scroll` is a `u16` in the source; here it is a
`Nat` on which every operation preserves `process_scroll < 2 ^ 16`. -/
structure App where
  gpus : List GpuInfo
  gpu_history : List (List Nat)
  memory_history : List (List Nat)
  process_scroll : Nat
deriving DecidableEq

/-- The fresh state built by `App::new` (app.rs lines 30-40), data fields only. -/
def App.init : App :=
  { gpus := [], gpu_history := [], memory_history := [], process_scroll := 0 }

/-- One per-series history update of `App::refresh_data` (app.rs lines 75-84):
push the new value, then drop the oldest entry if the length exceeds 60
(`remove(0)`). -/
def pushHistory (s : List Nat) (v : Nat) : List Nat :=
  let s2 := s ++ [v]
  if s2.length > 60 then s2.drop 1 else s2

/-- The indexed update loop of `App::refresh_data` (app.rs lines 74-85) for
one of the two history collections: series `i` receives value `i`; series
beyond the number of values (devices) are left untouched. -/
def updateHistories : List (List Nat) → List Nat → List (List Nat)
  | hs, [] => hs
  | [], _ :: _ => []
  | h :: hs, v :: vs => pushHistory h v :: updateHistories hs vs

/-- The value pushed to `gpu_history[i]`: `gpu.metrics.gpu_utilization as u64`
(app.rs line 75). -/
def utilValue (g : GpuInfo) : Nat := g.metrics.gpu_utilization

/-- The value pushed to `memory_history[i]`:
`gpu.memory.usage_percent() as u64` (app.rs line 76). -/
def memValue (g : GpuInfo) : Nat := (g.memory.usage_percent).toU64

/-- The scroll validation on refresh (app.rs lines 89-104), given the first
device's process count `n`.  `(max_processes - visible_rows) as u16` is the
`usize → u16` cast, hence the `% 2 ^ 16`. -/
def refreshScroll (offset n : Nat) : Nat :=
  if n > 10 then
    let max_scroll := (n - 10) % 2 ^ 16
    if offset > max_scroll then max_scroll else offset
  else 0

/-- `App::refresh_data` (app.rs lines 64-107) applied to an
already-fetched snapshot list (the `Ok` branch of `get_all_gpu_info`). -/
def App.refreshOk (st : App) (gpus : List GpuInfo) : App :=
  let grow := gpus.length - st.gpu_history.length
  let gh := st.gpu_history ++ List.replicate grow []
  let mh := st.memory_history ++ List.replicate grow []
  { gpus := gpus
    gpu_history := updateHistories gh (gpus.map utilValue)
    memory_history := updateHistories mh (gpus.map memValue)
    process_scroll :=
      match gpus with
      | [] => st.process_scroll
      | g0 :: _ => refreshScroll st.process_scroll g0.processes.length }

/-- `App::refresh_data` (app.rs lines 64-107): a fetch failure is propagated
with `?` and leaves the state unchanged; a successful fetch commits the
rebuilt state. -/
def App.refresh_data (st : App) (fetch : Except Error (List GpuInfo)) :
    Except Error App :=
  match fetch with
  | .error e => Except.error e
  | .ok gpus => Except.ok (st.refreshOk gpus)

/-- Iterated refreshes over a sequence of successfully fetched snapshot
lists, starting from a given state. -/
def App.refreshMany (st : App) (snaps : List (List GpuInfo)) : App :=
  snaps.foldl App.refreshOk st

/-- Scroll-up handling (app.rs line 116): `saturating_sub(1)`, which on `Nat`
is plain truncated subtraction. -/
def scrollUp (offset : Nat) : Nat := offset - 1

/-- Scroll-down handling (app.rs lines 118-135), given the first device's
process count `n` (0 when there is no device).  The increment happens only
strictly below `max_scroll`, so the `u16` addition cannot wrap. -/
def scrollDown (offset n : Nat) : Nat :=
  if n > 10 then
    let max_scroll := (n - 10) % 2 ^ 16
    if offset < max_scroll then offset + 1 else offset
  else offset

/-! ### The refresh scheduler seed (app.rs lines 37, 46) -/

/-! ### Auxiliary characterisations used by the proofs about the merge -/

/-- The record produced for a graphics entry not previously seen
(monitor.rs lines 186-195). -/
def mkGraphics (resolveName : Nat → Option String) (g : ProcSample) :
    GpuProcess :=
  { pid := g.pid
    name := resolvedName resolveName g.pid
    gpu_memory := extract_gpu_memory g.used_gpu_memory
    process_type := ProcessType.Graphics }

/-- The in-place update applied to an existing record when the same PID also
shows up in the graphics list (monitor.rs lines 184-185). -/
def mixWith (p : GpuProcess) (g : ProcSample) : GpuProcess :=
  { p with process_type := ProcessType.Mixed,
           gpu_memory := max p.gpu_memory (extract_gpu_memory g.used_gpu_memory) }

/-- Closed-form effect of the whole graphics loop on one seeded record:
if some graphics entry shares its PID, the record is mixed with the first
such entry, otherwise it is unchanged. -/
def applyGraphics (gs : List ProcSample) (p : GpuProcess) : GpuProcess :=
  match gs.find? (fun g => decide (p.pid = g.pid)) with
  | some g => mixWith p g
  | none => p

/-- Modelled from the spec: the process-exit translation of the fatal error
conditions.  The `main` entry point (src/crates/gpu-monitor-cli/src/main.rs
lines 55-63) calls `std::process::exit(1)` on initialization failure, and
returns the propagated `Err` from the refresh cycle, which the runtime turns
into a nonzero process exit; the runtime half of that translation is outside
src/. -/
def processExitCode (r : Except Error (List GpuInfo)) : Nat :=
  match r with
  | .ok _ => 0
  | .error _ => 1

/-- `GpuMonitor::new` (monitor.rs lines 26-29): an NVML initialization
failure is mapped into the distinguishable `Error::NvmlInit`; `main`
(src/crates/gpu-monitor-cli/src/main.rs lines 55-63) exits with code 1 on
that error. -/
def GpuMonitor.new (init : Except String Unit) : Except Error Unit :=
  match init with
  | .error msg => Except.error (Error.NvmlInit msg)
  | .ok _ => Except.ok ()

/-! ### Concrete sample inputs used by witnesses -/

/-- A name resolver that always fails, forcing the "unknown" fallback. -/
def rn0 : Nat → Option String := fun _ => none

/-- Fully successful query results for one device, except that the
utilization query fails. -/
def q0 : DeviceQueries :=
  { name := Except.ok "NVIDIA GeForce RTX 4060 Ti"
    uuid := Except.ok "GPU-0"
    pci_bus_id := Except.ok "0000:01:00.0"
    sys_driver_version := Except.ok "535.86"
    sys_cuda_driver_version := Except.ok 12020
    power_management_limit := Except.ok 200000
    power_management_limit_constraints_max := Except.ok 250000
    memory_info := Except.ok { total := 8, used := 2, free := 6 }
    utilization_rates := Except.error { code := 3 }
    encoder_utilization := Except.ok 0
    decoder_utilization := Except.ok 0
    temperature := Except.ok 40
    power_usage := Except.ok 50000
    fan_speed := Except.ok 30
    clock_graphics := Except.ok 1500
    clock_memory := Except.ok 900
    clock_sm := Except.ok 1500
    running_compute_processes := Except.ok []
    running_graphics_processes := Except.ok [] }

/-- Query results where the six snapshot-fatal queries succeed and every
degradable query fails. -/
def q1 : DeviceQueries :=
  { name := Except.ok "NVIDIA GeForce RTX 4060 Ti"
    uuid := Except.ok "GPU-1"
    pci_bus_id := Except.ok "0000:02:00.0"
    sys_driver_version := Except.ok "535.86"
    sys_cuda_driver_version := Except.error { code := 1 }
    power_management_limit := Except.error { code := 2 }
    power_management_limit_constraints_max := Except.error { code := 3 }
    memory_info := Except.ok { total := 8, used := 2, free := 6 }
    utilization_rates := Except.ok { gpu := 42, memory := 17 }
    encoder_utilization := Except.error { code := 4 }
    decoder_utilization := Except.error { code := 5 }
    temperature := Except.error { code := 6 }
    power_usage := Except.error { code := 7 }
    fan_speed := Except.error { code := 8 }
    clock_graphics := Except.error { code := 9 }
    clock_memory := Except.error { code := 10 }
    clock_sm := Except.error { code := 11 }
    running_compute_processes := Except.ok []
    running_graphics_processes := Except.ok [] }

/-- A concrete device snapshot with utilization 42 and empty process list. -/
def sampleGpu : GpuInfo :=
  { device :=
      { index := 0, name := "g", uuid := "u", pci_bus_id := "b",
        driver_version := "d", cuda_version := none,
        power_limit := 200, power_limit_max := 250 }
    metrics :=
      { gpu_utilization := 42, memory_utilization := 17,
        encoder_utilization := 0, decoder_utilization := 0,
        temperature := 40, power_usage := 50000, fan_speed := none,
        clock_graphics := 1500, clock_memory := 900, clock_sm := 1500 }
    memory := { total := 8, used := 2, free := 6 }
    processes := [] }

/-- `last_refresh: Instant::now() - Duration::from_secs(10)` (app.rs line 37):
the seed places the last-refresh timestamp 10000 ms in the past. -/
def seedBackoffMs : Nat := 10000

/-- Whether the first iteration of `App::run` performs a refresh
(app.rs line 46: `last_refresh.elapsed() >= interval`): at that point the
elapsed time is the 10000 ms seed plus the startup latency `delta`. -/
def firstIterationRefreshes (interval_ms delta_ms : Nat) : Bool :=
  decide (seedBackoffMs + delta_ms ≥ interval_ms)

/-! ## Theorems -/

/-- C9: `usage_percent` returns exactly 0 when `total = 0` — the guard makes
the zero-total case never reach the division, so no NaN arises — and for
`total ≠ 0` it returns `used / total * 100`. -/
theorem usage_percent_spec (m : MemoryInfo) :
    (m.total = 0 → m.usage_percent = F32.fin 0 ∧ m.usage_percent ≠ F32.nan) ∧
    (m.total ≠ 0 →
      m.usage_percent = F32.fin ((m.used : ℚ) / (m.total : ℚ) * 100)) := by
  constructor
  · intro h
    simp [MemoryInfo.usage_percent, h]
  · intro h
    have ht : ((m.total : ℚ)) ≠ 0 := Nat.cast_ne_zero.mpr h
    simp [MemoryInfo.usage_percent, h, F32.div, F32.mul, ht]

/-- Witness for C9 at `total = 0` and at `total = 4, used = 1`. -/
theorem usage_percent_spec_witness :
    MemoryInfo.usage_percent { total := 0, used := 5, free := 0 } = F32.fin 0 ∧
    MemoryInfo.usage_percent { total := 4, used := 1, free := 3 } =
      F32.fin (((1 : Nat) : ℚ) / ((4 : Nat) : ℚ) * 100) :=
  ⟨((usage_percent_spec { total := 0, used := 5, free := 0 }).1 rfl).1,
   (usage_percent_spec { total := 4, used := 1, free := 3 }).2 (by decide)⟩

/-- C7: the claim that the very first loop iteration refreshes regardless of
the configured interval FAILS on the code: the last-refresh seed is only
10000 ms in the past, so an interval of 20000 ms (with negligible startup
latency) skips the refresh on the first iteration; the immediate first
refresh only happens for intervals up to 10000 ms. -/
theorem first_iteration_refresh_at_failing_input :
    firstIterationRefreshes 20000 0 = false ∧
    firstIterationRefreshes 10000 0 = true ∧
    firstIterationRefreshes 1000 500 = true := by decide

/-- C6: with `visible_rows = 10` and `n` the first device's process count,
every refresh and navigation event keeps the scroll offset within
`0 ≤ offset ≤ max 0 (n - 10)` (the lower bound and the saturation of
navigation-up are inherent to the `Nat`/`saturating_sub` model):
a refresh resets to 0 when `n ≤ 10`, clamps an oversized offset down to
`max_scroll = n - 10` (for any offset representable in the `u16` field),
navigation-down never advances past `max_scroll`, and navigation-up
saturates at 0. -/
theorem scroll_offset_invariant (offset n : Nat) :
    refreshScroll offset n ≤ n - 10 ∧
    (n ≤ 10 → refreshScroll offset n = 0) ∧
    (offset < 2 ^ 16 → n - 10 < offset → refreshScroll offset n = n - 10) ∧
    (offset ≤ n - 10 → scrollDown offset n ≤ n - 10) ∧
    scrollUp 0 = 0 ∧
    (offset ≤ n - 10 → scrollUp offset ≤ n - 10) := by
  refine ⟨?_, ?_, ?_, ?_, rfl, ?_⟩
  · unfold refreshScroll
    split <;> [dsimp only; omega]
    split <;> omega
  · intro h
    unfold refreshScroll
    split <;> omega
  · intro h1 h2
    unfold refreshScroll
    split <;> [dsimp only; omega]
    split <;> omega
  · intro h
    unfold scrollDown
    split <;> [dsimp only; omega]
    split <;> omega
  · intro h
    unfold scrollUp
    omega

/-- Witness for C6: clamping at `n = 15, offset = 20`, reset at `n = 8`,
navigation-down bound at `n = 15, offset = 4`, navigation-up bound. -/
theorem scroll_offset_invariant_witness :
    refreshScroll 20 15 = 15 - 10 ∧
    refreshScroll 3 8 = 0 ∧
    scrollDown 4 15 ≤ 15 - 10 ∧
    scrollUp 5 ≤ 15 - 10 :=
  ⟨(scroll_offset_invariant 20 15).2.2.1 (by decide) (by decide),
   (scroll_offset_invariant 3 8).2.1 (by decide),
   (scroll_offset_invariant 4 15).2.2.2.1 (by decide),
   (scroll_offset_invariant 5 15).2.2.2.2.2 (by decide)⟩

/-- The per-series update loop touches contents only: it never changes how
many series there are. -/
theorem updateHistories_length (hs : List (List Nat)) (vs : List Nat) :
    (updateHistories hs vs).length = hs.length := by
  induction hs generalizing vs with
  | nil => cases vs <;> simp [updateHistories]
  | cons h tl ih =>
    cases vs with
    | nil => simp [updateHistories]
    | cons v vs => simp [updateHistories, ih]

/-- C5: a refresh grows each history collection to
`max (previous length) (device count)`: it is extended with empty series up
to the current device count and is never shrunk (the memory collection is
grown by the same number of series as the utilization collection, so under
the lockstep invariant it obeys the same law). -/
theorem history_collection_only_grows (st : App) (gpus : List GpuInfo) :
    (st.refreshOk gpus).gpu_history.length =
      max st.gpu_history.length gpus.length ∧
    st.gpu_history.length ≤ (st.refreshOk gpus).gpu_history.length ∧
    (st.memory_history.length = st.gpu_history.length →
      (st.refreshOk gpus).memory_history.length =
        max st.memory_history.length gpus.length) := by
  unfold App.refreshOk
  refine ⟨?_, ?_, ?_⟩
  · simp [updateHistories_length]
    omega
  · simp [updateHistories_length]
  · intro h
    simp [updateHistories_length, h]
    omega

/-- Witness for C5 at the initial state and a one-device snapshot. -/
theorem history_collection_only_grows_witness :
    (App.init.refreshOk [sampleGpu]).memory_history.length =
      max App.init.memory_history.length [sampleGpu].length :=
  (history_collection_only_grows App.init [sampleGpu]).2.2 rfl

/-- One history push never leaves a series longer than 60. -/
theorem pushHistory_length_le (s : List Nat) (v : Nat) (h : s.length ≤ 60) :
    (pushHistory s v).length ≤ 60 := by
  unfold pushHistory
  dsimp only
  split
  · rename_i hc
    simp only [List.length_drop, List.length_append, List.length_singleton]
    omega
  · rename_i hc
    simp only [List.length_append, List.length_singleton] at hc ⊢
    omega

/-- The per-series bound is preserved across the whole update loop. -/
theorem updateHistories_length_le {hs : List (List Nat)}
    (h : ∀ s ∈ hs, s.length ≤ 60) (vs : List Nat) :
    ∀ s ∈ updateHistories hs vs, s.length ≤ 60 := by
  induction hs generalizing vs with
  | nil => cases vs <;> simp [updateHistories]
  | cons hd tl ih =>
    cases vs with
    | nil => simpa [updateHistories] using h
    | cons v vs =>
      simp only [updateHistories, List.mem_cons]
      rintro s (rfl | hmem)
      · exact pushHistory_length_le hd v (h hd (by simp))
      · exact ih (fun s hs => h s (by simp [hs])) vs s hmem

/-- A full refresh preserves the 60-sample bound on every series of both
history collections. -/
theorem refreshOk_length_le {st : App}
    (hg : ∀ s ∈ st.gpu_history, s.length ≤ 60)
    (hm : ∀ s ∈ st.memory_history, s.length ≤ 60) (gpus : List GpuInfo) :
    (∀ s ∈ (st.refreshOk gpus).gpu_history, s.length ≤ 60) ∧
    (∀ s ∈ (st.refreshOk gpus).memory_history, s.length ≤ 60) := by
  unfold App.refreshOk
  constructor
  · refine updateHistories_length_le ?_ _
    intro s hs
    rcases List.mem_append.mp hs with h | h
    · exact hg s h
    · simp [List.eq_of_mem_replicate h]
  · refine updateHistories_length_le ?_ _
    intro s hs
    rcases List.mem_append.mp hs with h | h
    · exact hm s h
    · simp [List.eq_of_mem_replicate h]

/-- C4: starting from the fresh application state, any number of refreshes
leaves every history series (utilization and memory, every device) at length
at most 60; and one push applied to a series already at length 60 yields
exactly the previous series with its oldest (first) element dropped and the
new value appended. -/
theorem history_depth_capped :
    (∀ snaps : List (List GpuInfo),
      (∀ s ∈ (App.init.refreshMany snaps).gpu_history, s.length ≤ 60) ∧
      (∀ s ∈ (App.init.refreshMany snaps).memory_history, s.length ≤ 60)) ∧
    (∀ (s : List Nat) (v : Nat), s.length = 60 →
      pushHistory s v = s.drop 1 ++ [v]) := by
  constructor
  · have main : ∀ (snaps : List (List GpuInfo)) (st : App),
        (∀ s ∈ st.gpu_history, s.length ≤ 60) →
        (∀ s ∈ st.memory_history, s.length ≤ 60) →
        (∀ s ∈ (st.refreshMany snaps).gpu_history, s.length ≤ 60) ∧
        (∀ s ∈ (st.refreshMany snaps).memory_history, s.length ≤ 60) := by
      intro snaps
      induction snaps with
      | nil => intro st hg hm; exact ⟨hg, hm⟩
      | cons gpus rest ih =>
        intro st hg hm
        have h := refreshOk_length_le hg hm gpus
        exact ih (st.refreshOk gpus) h.1 h.2
    intro snaps
    exact main snaps App.init (by simp [App.init]) (by simp [App.init])
  · intro s v h
    unfold pushHistory
    dsimp only
    rw [if_pos (by simp [h])]
    rw [List.drop_append_of_le_length (by omega)]

/-- Witness for C4: one refresh from the fresh state yields the series
`[42]`, within the bound; a push onto a 60-long series drops the head. -/
theorem history_depth_capped_witness :
    ([42] : List Nat).length ≤ 60 ∧
    pushHistory (List.replicate 60 0) 7 =
      (List.replicate 60 0).drop 1 ++ [7] :=
  ⟨history_depth_capped.1 [[sampleGpu]] |>.1 [42] (by decide),
   history_depth_capped.2 (List.replicate 60 0) 7 (by decide)⟩

/-- Two pushes onto equally long series leave equally long series: the
eviction decision depends only on the length. -/
theorem pushHistory_length_eq {s t : List Nat} (h : s.length = t.length)
    (v w : Nat) : (pushHistory s v).length = (pushHistory t w).length := by
  unfold pushHistory
  dsimp only
  split <;> split <;>
    simp only [List.length_drop, List.length_append, List.length_singleton,
      List.length_nil] at * <;> omega

/-- Index-wise description of the history update loop: series `i` is pushed
with value `i` when there is one, and untouched otherwise. -/
theorem updateHistories_getElem? (hs : List (List Nat)) (vs : List Nat)
    (i : Nat) :
    (updateHistories hs vs)[i]? =
      match vs[i]? with
      | some v => hs[i]?.map (fun s => pushHistory s v)
      | none => hs[i]? := by
  induction hs generalizing vs i with
  | nil =>
    cases vs with
    | nil => simp [updateHistories]
    | cons v vs =>
      cases i with
      | zero => simp [updateHistories]
      | succ n =>
        cases h : (v :: vs)[n + 1]? <;> simp [updateHistories, h]
  | cons h tl ih =>
    cases vs with
    | nil => simp [updateHistories]
    | cons v vs =>
      cases i with
      | zero => simp [updateHistories]
      | succ n => simp [updateHistories, ih]

/-- Growing two equally-shaped collections by the same number of empty
series keeps the per-index series lengths equal. -/
theorem grow_getD_length_eq {a b : List (List Nat)} (k : Nat)
    (hlen : a.length = b.length)
    (hidx : ∀ i, (a.getD i []).length = (b.getD i []).length) (i : Nat) :
    (((a ++ List.replicate k []).getD i [])).length =
      (((b ++ List.replicate k []).getD i [])).length := by
  rcases Nat.lt_or_ge i a.length with h | h
  · rw [List.getD_eq_getElem?_getD, List.getD_eq_getElem?_getD,
      List.getElem?_append_left h, List.getElem?_append_left (hlen ▸ h),
      ← List.getD_eq_getElem?_getD, ← List.getD_eq_getElem?_getD]
    exact hidx i
  · rw [List.getD_eq_getElem?_getD, List.getD_eq_getElem?_getD,
      List.getElem?_append_right h, List.getElem?_append_right (hlen ▸ h),
      List.getElem?_replicate, List.getElem?_replicate, hlen]

/-- One refresh preserves the lockstep shape of the two history
collections: same number of series and, index by index, same series length. -/
theorem refreshOk_lockstep {st : App}
    (hlen : st.gpu_history.length = st.memory_history.length)
    (hidx : ∀ i, (st.gpu_history.getD i []).length =
      (st.memory_history.getD i []).length) (gpus : List GpuInfo) :
    (st.refreshOk gpus).gpu_history.length =
      (st.refreshOk gpus).memory_history.length ∧
    ∀ i, ((st.refreshOk gpus).gpu_history.getD i []).length =
      ((st.refreshOk gpus).memory_history.getD i []).length := by
  constructor
  · simp [App.refreshOk, updateHistories_length, hlen]
  · intro i
    unfold App.refreshOk
    dsimp only
    rw [List.getD_eq_getElem?_getD, List.getD_eq_getElem?_getD,
      updateHistories_getElem?, updateHistories_getElem?]
    have hglen : (st.gpu_history ++
        List.replicate (gpus.length - st.gpu_history.length) ([] : List Nat)).length =
        (st.memory_history ++
        List.replicate (gpus.length - st.gpu_history.length) ([] : List Nat)).length := by
      simp [hlen]
    have hgidx := grow_getD_length_eq (gpus.length - st.gpu_history.length)
      hlen hidx
    set gh2 := st.gpu_history ++
      List.replicate (gpus.length - st.gpu_history.length) ([] : List Nat) with hgh2
    set mh2 := st.memory_history ++
      List.replicate (gpus.length - st.gpu_history.length) ([] : List Nat) with hmh2
    cases hg : gpus[i]? with
    | none =>
      have hu : (gpus.map utilValue)[i]? = none := by
        simp only [List.getElem?_map, hg, Option.map_none']
      have hm : (gpus.map memValue)[i]? = none := by
        simp only [List.getElem?_map, hg, Option.map_none']
      rw [hu, hm]
      have := hgidx i
      rw [List.getD_eq_getElem?_getD, List.getD_eq_getElem?_getD] at this
      exact this
    | some g =>
      have hu : (gpus.map utilValue)[i]? = some (utilValue g) := by
        simp only [List.getElem?_map, hg, Option.map_some']
      have hm : (gpus.map memValue)[i]? = some (memValue g) := by
        simp only [List.getElem?_map, hg, Option.map_some']
      rw [hu, hm]
      cases hg2 : gh2[i]? with
      | none =>
        have hi : gh2.length ≤ i := by
          by_contra hlt
          rcases List.getElem?_eq_some_iff.mpr
            ⟨Nat.lt_of_not_le hlt, rfl⟩ with h2
          rw [hg2] at h2
          exact Option.noConfusion h2
        have hm2 : mh2[i]? = none := by
          rw [List.getElem?_eq_none_iff]
          omega
        simp [hm2]
      | some s =>
        have hi : i < gh2.length := by
          rcases List.getElem?_eq_some_iff.mp hg2 with ⟨h2, _⟩
          exact h2
        have hi2 : i < mh2.length := by omega
        have hm2 : mh2[i]? = some mh2[i] := List.getElem?_eq_getElem hi2
        rw [hm2]
        have hsl : s.length = (mh2[i]).length := by
          have := hgidx i
          rw [List.getD_eq_getElem?_getD, List.getD_eq_getElem?_getD,
            hg2, hm2] at this
          simpa using this
        simp only [Option.map_some', Option.getD_some]
        exact pushHistory_length_eq hsl _ _

/-- C10: from the fresh application state, after any sequence of refreshes
the utilization and memory history collections have the same length, and
for every device index the two series at that index have the same length —
the collections are grown, appended to, and evicted in lockstep. -/
theorem histories_in_lockstep (snaps : List (List GpuInfo)) :
    (App.init.refreshMany snaps).gpu_history.length =
      (App.init.refreshMany snaps).memory_history.length ∧
    ∀ i : Nat, ((App.init.refreshMany snaps).gpu_history.getD i []).length =
      ((App.init.refreshMany snaps).memory_history.getD i []).length := by
  have main : ∀ (snaps : List (List GpuInfo)) (st : App),
      st.gpu_history.length = st.memory_history.length →
      (∀ i, (st.gpu_history.getD i []).length =
        (st.memory_history.getD i []).length) →
      (st.refreshMany snaps).gpu_history.length =
        (st.refreshMany snaps).memory_history.length ∧
      ∀ i, ((st.refreshMany snaps).gpu_history.getD i []).length =
        ((st.refreshMany snaps).memory_history.getD i []).length := by
    intro snaps
    induction snaps with
    | nil => intro st hlen hidx; exact ⟨hlen, hidx⟩
    | cons gpus rest ih =>
      intro st hlen hidx
      have h := refreshOk_lockstep hlen hidx gpus
      exact ih (st.refreshOk gpus) h.1 h.2
  exact main snaps App.init rfl (fun i => rfl)

/-- C3: the final process ordering is non-increasing by `gpu_memory`, and
the sort is stable: two records with equal `gpu_memory` that appear in some
relative order before the sort appear in the same relative order after it. -/
theorem process_sort_sorted_and_stable (ps : List GpuProcess) :
    List.Pairwise (fun a b : GpuProcess => b.gpu_memory ≤ a.gpu_memory)
      (sortProcesses ps) ∧
    (∀ a b : GpuProcess, a.gpu_memory = b.gpu_memory →
      List.Sublist [a, b] ps → List.Sublist [a, b] (sortProcesses ps)) := by
  have htrans : ∀ a b c : GpuProcess,
      (fun a b : GpuProcess => decide (b.gpu_memory ≤ a.gpu_memory)) a b →
      (fun a b : GpuProcess => decide (b.gpu_memory ≤ a.gpu_memory)) b c →
      (fun a b : GpuProcess => decide (b.gpu_memory ≤ a.gpu_memory)) a c := by
    intro a b c hab hbc
    simp only [decide_eq_true_eq] at *
    omega
  have htotal : ∀ a b : GpuProcess,
      ((fun a b : GpuProcess => decide (b.gpu_memory ≤ a.gpu_memory)) a b ||
       (fun a b : GpuProcess => decide (b.gpu_memory ≤ a.gpu_memory)) b a) := by
    intro a b
    simp only [Bool.or_eq_true, decide_eq_true_eq]
    omega
  unfold sortProcesses
  constructor
  · have h := List.sorted_mergeSort htrans htotal ps
    exact h.imp (by intro a b hb; simpa using hb)
  · intro a b hmem hsub
    exact List.pair_sublist_mergeSort htrans htotal (by simp [hmem]) hsub

/-- Witness for C3: two equal-memory records keep their relative order
through the sort of a concrete three-element list. -/
theorem process_sort_sorted_and_stable_witness :
    List.Sublist
      [(⟨1, "a", 200, ProcessType.Compute⟩ : GpuProcess),
       ⟨2, "b", 200, ProcessType.Graphics⟩]
      (sortProcesses [⟨3, "c", 50, ProcessType.Compute⟩,
        ⟨1, "a", 200, ProcessType.Compute⟩,
        ⟨2, "b", 200, ProcessType.Graphics⟩]) :=
  (process_sort_sorted_and_stable _).2 _ _ rfl
    (List.Sublist.cons _ (List.Sublist.refl _))

/-- The in-place merge update never changes the PID column. -/
theorem updateFirst_map_pid (ps : List GpuProcess) (pid mem : Nat) :
    (updateFirst ps pid mem).map GpuProcess.pid = ps.map GpuProcess.pid := by
  induction ps with
  | nil => rfl
  | cons p rest ih =>
    by_cases hp : p.pid = pid <;> simp [updateFirst, hp, ih]

/-- With unique PIDs, updating the first matching record is the same as
updating every matching record. -/
theorem updateFirst_eq_map {ps : List GpuProcess}
    (h : (ps.map GpuProcess.pid).Nodup) (pid mem : Nat) :
    updateFirst ps pid mem =
      ps.map fun p =>
        if p.pid = pid then
          { p with process_type := ProcessType.Mixed,
                   gpu_memory := max p.gpu_memory mem }
        else p := by
  induction ps with
  | nil => rfl
  | cons p rest ih =>
    have h0 : p.pid ∉ rest.map GpuProcess.pid :=
      (List.nodup_cons.mp (by simpa using h)).1
    have h1 : (rest.map GpuProcess.pid).Nodup :=
      (List.nodup_cons.mp (by simpa using h)).2
    by_cases hp : p.pid = pid
    · simp only [updateFirst, if_pos hp, List.map_cons]
      refine congrArg _ ?_
      have hrest : ∀ r ∈ rest,
          (if r.pid = pid then
            ({ r with process_type := ProcessType.Mixed,
                      gpu_memory := max r.gpu_memory mem } : GpuProcess)
          else r) = r := by
        intro r hr
        rw [if_neg]
        intro hrp
        exact h0 (by rw [hp, ← hrp]; exact List.mem_map_of_mem _ hr)
      rw [List.map_congr_left hrest, List.map_id']
    · simp only [updateFirst, if_neg hp, List.map_cons]
      exact congrArg _ (ih h1)

/-- PID search over the records is membership in the PID column. -/
theorem any_pid_eq (l : List GpuProcess) (x : Nat) :
    (l.any fun p => decide (p.pid = x)) =
      decide (x ∈ l.map GpuProcess.pid) := by
  rw [Bool.eq_iff_iff]
  simp only [List.any_eq_true, decide_eq_true_eq, List.mem_map]

/-- The closed-form graphics application never changes a record's PID. -/
theorem applyGraphics_pid (gs : List ProcSample) (p : GpuProcess) :
    (applyGraphics gs p).pid = p.pid := by
  unfold applyGraphics
  cases gs.find? fun g => decide (p.pid = g.pid) <;> simp [mixWith]

/-- In a list with unique PIDs, searching for the PID of a member finds
exactly that member. -/
theorem find?_key_unique {gs : List ProcSample}
    (h : (gs.map ProcSample.pid).Nodup) {g : ProcSample} (hg : g ∈ gs) :
    gs.find? (fun q => decide (g.pid = q.pid)) = some g := by
  induction gs with
  | nil => cases hg
  | cons g0 rest ih =>
    have h0 : g0.pid ∉ rest.map ProcSample.pid :=
      (List.nodup_cons.mp (by simpa using h)).1
    have h1 : (rest.map ProcSample.pid).Nodup :=
      (List.nodup_cons.mp (by simpa using h)).2
    rcases List.mem_cons.mp hg with rfl | hmem
    · simp
    · by_cases hp : g.pid = g0.pid
      · exact absurd (hp ▸ List.mem_map_of_mem ProcSample.pid hmem) h0
      · rw [List.find?_cons_of_neg _ (by simpa using hp)]
        exact ih h1 hmem

/-- With unique PIDs, counting the records carrying a given PID yields 1 or
0 according to membership in the PID column. -/
theorem countP_pid_nodup {l : List ProcSample}
    (h : (l.map ProcSample.pid).Nodup) (x : Nat) :
    l.countP (fun c => decide (c.pid = x)) =
      if x ∈ l.map ProcSample.pid then 1 else 0 := by
  induction l with
  | nil => simp
  | cons c rest ih =>
    have h0 : c.pid ∉ rest.map ProcSample.pid :=
      (List.nodup_cons.mp (by simpa using h)).1
    have h1 : (rest.map ProcSample.pid).Nodup :=
      (List.nodup_cons.mp (by simpa using h)).2
    by_cases hp : c.pid = x
    · subst hp
      rw [List.countP_cons, ih h1, if_neg h0]
      simp
    · rw [List.countP_cons, ih h1]
      simp [hp, Ne.symm hp]

/-- Closed form of the graphics merge loop: with unique PIDs on both sides,
folding the graphics entries over a seeded accumulator updates each seeded
record through `applyGraphics` and appends, in order, a fresh `Graphics`
record for every graphics entry whose PID was not in the accumulator. -/
theorem foldl_mergeGraphicsOne_closed (rn : Nat → Option String) :
    ∀ (gs : List ProcSample) (acc : List GpuProcess),
      (acc.map GpuProcess.pid).Nodup → (gs.map ProcSample.pid).Nodup →
      gs.foldl (mergeGraphicsOne rn) acc =
        acc.map (applyGraphics gs) ++
        (gs.filter fun g => !(acc.any fun p => decide (p.pid = g.pid))).map
          (mkGraphics rn) := by
  intro gs
  induction gs with
  | nil =>
    intro acc hacc _
    simp only [List.foldl_nil, List.filter_nil, List.map_nil, List.append_nil]
    have hid : ∀ p ∈ acc, applyGraphics [] p = p := by
      intro p _
      simp [applyGraphics]
    rw [List.map_congr_left hid, List.map_id']
  | cons g gs ih =>
    intro acc hacc hgs
    have hgpid : g.pid ∉ gs.map ProcSample.pid :=
      (List.nodup_cons.mp (by simpa using hgs)).1
    have hgsnd : (gs.map ProcSample.pid).Nodup :=
      (List.nodup_cons.mp (by simpa using hgs)).2
    rw [List.foldl_cons]
    by_cases hmem : (acc.any fun p => decide (p.pid = g.pid)) = true
    · -- the PID is already present: in-place update of the first match
      have hstep : mergeGraphicsOne rn acc g =
          updateFirst acc g.pid (extract_gpu_memory g.used_gpu_memory) := by
        simp only [mergeGraphicsOne, hmem, if_true]
      rw [hstep]
      have hpid' := updateFirst_map_pid acc g.pid
        (extract_gpu_memory g.used_gpu_memory)
      have hacc' : ((updateFirst acc g.pid
          (extract_gpu_memory g.used_gpu_memory)).map GpuProcess.pid).Nodup := by
        rw [hpid']
        exact hacc
      rw [ih _ hacc' hgsnd]
      have hA : (updateFirst acc g.pid
            (extract_gpu_memory g.used_gpu_memory)).map (applyGraphics gs) =
          acc.map (applyGraphics (g :: gs)) := by
        rw [updateFirst_eq_map hacc, List.map_map]
        refine List.map_congr_left ?_
        intro p _
        by_cases hpp : p.pid = g.pid
        · have hfind1 : gs.find? (fun q => decide (p.pid = q.pid)) = none := by
            rw [List.find?_eq_none]
            intro q hq
            simp only [decide_eq_true_eq]
            intro hcontra
            exact hgpid (hpp ▸ hcontra ▸ List.mem_map_of_mem ProcSample.pid hq)
          have hhead : (fun q : ProcSample => decide (p.pid = q.pid)) g
              = true := by
            simp [hpp]
          have hcons : List.find? (fun q => decide (p.pid = q.pid)) (g :: gs)
              = some g := List.find?_cons_of_pos gs hhead
          simp only [Function.comp_apply, if_pos hpp, applyGraphics, mixWith,
            hcons, hfind1]
        · have hhead : ¬((fun q : ProcSample => decide (p.pid = q.pid)) g
              = true) := by
            simp [hpp]
          have hcons : List.find? (fun q => decide (p.pid = q.pid)) (g :: gs)
              = List.find? (fun q => decide (p.pid = q.pid)) gs :=
            List.find?_cons_of_neg gs hhead
          simp only [Function.comp_apply, if_neg hpp, applyGraphics, hcons]
      have hB : (gs.filter fun g2 => !((updateFirst acc g.pid
              (extract_gpu_memory g.used_gpu_memory)).any
            fun p => decide (p.pid = g2.pid))) =
          (gs.filter fun g2 => !(acc.any fun p => decide (p.pid = g2.pid))) := by
        refine List.filter_congr ?_
        intro g2 _
        rw [any_pid_eq, any_pid_eq, hpid']
      have hhd : ((g :: gs).filter
            fun g2 => !(acc.any fun p => decide (p.pid = g2.pid))) =
          (gs.filter fun g2 => !(acc.any fun p => decide (p.pid = g2.pid))) := by
        rw [List.filter_cons_of_neg]
        simp [hmem]
      rw [hA, hB, hhd]
    · -- fresh PID: append a new Graphics record
      have hmem' : (acc.any fun p => decide (p.pid = g.pid)) = false :=
        Bool.not_eq_true _ ▸ eq_false_of_ne_true hmem
      have hstep : mergeGraphicsOne rn acc g = acc ++ [mkGraphics rn g] := by
        simp only [mergeGraphicsOne, hmem', Bool.false_eq_true, if_false,
          mkGraphics]
      have hnotin : g.pid ∉ acc.map GpuProcess.pid := by
        have h1 := any_pid_eq acc g.pid
        rw [hmem'] at h1
        exact of_decide_eq_false h1.symm
      rw [hstep]
      have hacc' : ((acc ++ [mkGraphics rn g]).map GpuProcess.pid).Nodup := by
        rw [List.map_append]
        rw [List.nodup_append]
        refine ⟨hacc, by simp, ?_⟩
        intro x hx
        simp only [mkGraphics, List.map_cons, List.map_nil, List.mem_singleton]
        intro hxe
        exact hnotin (hxe ▸ hx)
      rw [ih _ hacc' hgsnd]
      have hmk_pid : (mkGraphics rn g).pid = g.pid := rfl
      have hA : (acc ++ [mkGraphics rn g]).map (applyGraphics gs) =
          acc.map (applyGraphics (g :: gs)) ++ [mkGraphics rn g] := by
        rw [List.map_append]
        have h2 : [mkGraphics rn g].map (applyGraphics gs) =
            [mkGraphics rn g] := by
          have hfind : gs.find? (fun q =>
              decide ((mkGraphics rn g).pid = q.pid)) = none := by
            rw [List.find?_eq_none]
            intro q hq
            simp only [hmk_pid, decide_eq_true_eq]
            intro hcontra
            exact hgpid (hcontra ▸ List.mem_map_of_mem ProcSample.pid hq)
          simp only [List.map_cons, List.map_nil, applyGraphics, hfind]
        have h3 : acc.map (applyGraphics gs) =
            acc.map (applyGraphics (g :: gs)) := by
          refine List.map_congr_left ?_
          intro p hp
          have hpp : ¬(p.pid = g.pid) := by
            intro hc
            exact hnotin (hc ▸ List.mem_map_of_mem GpuProcess.pid hp)
          have hhead : ¬((fun q : ProcSample => decide (p.pid = q.pid)) g
              = true) := by
            simp [hpp]
          have hcons : List.find? (fun q => decide (p.pid = q.pid)) (g :: gs)
              = List.find? (fun q => decide (p.pid = q.pid)) gs :=
            List.find?_cons_of_neg gs hhead
          simp only [applyGraphics, hcons]
        rw [h2, h3]
      have hB : (gs.filter fun g2 => !((acc ++ [mkGraphics rn g]).any
            fun p => decide (p.pid = g2.pid))) =
          (gs.filter fun g2 => !(acc.any fun p => decide (p.pid = g2.pid))) := by
        refine List.filter_congr ?_
        intro g2 hg2
        have hne : ¬(g.pid = g2.pid) := by
          intro hc
          exact hgpid (hc ▸ List.mem_map_of_mem ProcSample.pid hg2)
        simp [mkGraphics, hne]
      have hhd : ((g :: gs).filter
            fun g2 => !(acc.any fun p => decide (p.pid = g2.pid))) =
          g :: (gs.filter fun g2 =>
            !(acc.any fun p => decide (p.pid = g2.pid))) := by
        rw [List.filter_cons_of_pos]
        simp [hmem']
      rw [hA, hB, hhd]
      simp [List.append_assoc]

/-- C2: merging a compute list and a graphics list whose PIDs are each
unique within their own list yields a list in which every PID appears
exactly once; a PID present in both inputs yields one `Mixed` record whose
memory is the max (not the sum) of the two reported values, a PID only in
the compute list yields a `Compute` record, a PID only in the graphics list
a `Graphics` record, and for disjoint PID sets the output length is the sum
of the input lengths. -/
theorem process_merge_spec (rn : Nat → Option String)
    (cs gs : List ProcSample)
    (hc : (cs.map ProcSample.pid).Nodup) (hg : (gs.map ProcSample.pid).Nodup)
    (out : List GpuProcess)
    (hout : get_gpu_processes rn (Except.ok cs) (Except.ok gs) =
      Except.ok out) :
    (∀ pid : Nat, out.countP (fun r => decide (r.pid = pid)) =
      if pid ∈ cs.map ProcSample.pid ∨ pid ∈ gs.map ProcSample.pid
        then 1 else 0) ∧
    (∀ c ∈ cs, ∀ g ∈ gs, c.pid = g.pid →
      ({ pid := c.pid, name := resolvedName rn c.pid,
         gpu_memory := max (extract_gpu_memory c.used_gpu_memory)
           (extract_gpu_memory g.used_gpu_memory),
         process_type := ProcessType.Mixed } : GpuProcess) ∈ out) ∧
    (∀ c ∈ cs, c.pid ∉ gs.map ProcSample.pid →
      ({ pid := c.pid, name := resolvedName rn c.pid,
         gpu_memory := extract_gpu_memory c.used_gpu_memory,
         process_type := ProcessType.Compute } : GpuProcess) ∈ out) ∧
    (∀ g ∈ gs, g.pid ∉ cs.map ProcSample.pid →
      ({ pid := g.pid, name := resolvedName rn g.pid,
         gpu_memory := extract_gpu_memory g.used_gpu_memory,
         process_type := ProcessType.Graphics } : GpuProcess) ∈ out) ∧
    ((∀ x ∈ cs.map ProcSample.pid, x ∉ gs.map ProcSample.pid) →
      out.length = cs.length + gs.length) := by
  have hgp : get_gpu_processes rn (Except.ok cs) (Except.ok gs) =
      Except.ok (sortProcesses (mergedProcesses rn cs gs)) := rfl
  rw [hgp] at hout
  have hout2 : out = sortProcesses (mergedProcesses rn cs gs) :=
    (Except.ok.inj hout).symm
  have hpermout : List.Perm out (mergedProcesses rn cs gs) := by
    rw [hout2]
    unfold sortProcesses
    exact List.mergeSort_perm _ _
  have hseedpid : (seedCompute rn cs).map GpuProcess.pid =
      cs.map ProcSample.pid := by
    unfold seedCompute
    rw [List.map_map]
    rfl
  have hseednd : ((seedCompute rn cs).map GpuProcess.pid).Nodup := by
    rw [hseedpid]
    exact hc
  have hclosed : mergedProcesses rn cs gs =
      (seedCompute rn cs).map (applyGraphics gs) ++
      (gs.filter fun g =>
        !((seedCompute rn cs).any fun p => decide (p.pid = g.pid))).map
        (mkGraphics rn) :=
    foldl_mergeGraphicsOne_closed rn gs _ hseednd hg
  have hany : ∀ x : Nat,
      ((seedCompute rn cs).any fun p => decide (p.pid = x)) =
        decide (x ∈ cs.map ProcSample.pid) := by
    intro x
    rw [any_pid_eq, hseedpid]
  refine ⟨?_, ?_, ?_, ?_, ?_⟩
  · -- each PID appears exactly once
    intro pid
    rw [List.Perm.countP_eq _ hpermout, hclosed, List.countP_append]
    have hA : ((seedCompute rn cs).map (applyGraphics gs)).countP
        (fun r => decide (r.pid = pid)) =
        cs.countP (fun c => decide (c.pid = pid)) := by
      rw [List.countP_map]
      unfold seedCompute
      rw [List.countP_map]
      refine List.countP_congr ?_
      intro c _
      simp [Function.comp, applyGraphics_pid]
    have hB : ((gs.filter fun g =>
          !((seedCompute rn cs).any fun p => decide (p.pid = g.pid))).map
          (mkGraphics rn)).countP (fun r => decide (r.pid = pid)) =
        gs.countP (fun g => decide (g.pid = pid) &&
          !decide (g.pid ∈ cs.map ProcSample.pid)) := by
      rw [List.countP_map]
      rw [List.filter_congr fun g _ => by rw [hany g.pid]]
      rw [List.countP_filter]
      refine List.countP_congr ?_
      intro g _
      simp [Function.comp, mkGraphics]
    rw [hA, hB, countP_pid_nodup hc pid]
    by_cases hin : pid ∈ cs.map ProcSample.pid
    · have hB0 : gs.countP (fun g => decide (g.pid = pid) &&
          !decide (g.pid ∈ cs.map ProcSample.pid)) = 0 := by
        rw [List.countP_eq_zero]
        intro g _
        by_cases hgp2 : g.pid = pid <;> simp [hgp2, hin]
      rw [hB0]
      simp [hin]
    · have hBval : gs.countP (fun g => decide (g.pid = pid) &&
          !decide (g.pid ∈ cs.map ProcSample.pid)) =
          gs.countP (fun g => decide (g.pid = pid)) := by
        refine List.countP_congr ?_
        intro g _
        by_cases hgp2 : g.pid = pid <;> simp [hgp2, hin]
      rw [hBval, countP_pid_nodup hg pid]
      simp [hin]
  · -- PID in both lists: one Mixed record with the max memory
    intro c hcmem g hgmem hpideq
    rw [List.Perm.mem_iff hpermout, hclosed]
    refine List.mem_append.mpr (Or.inl ?_)
    have hseedmem : (⟨c.pid, resolvedName rn c.pid,
        extract_gpu_memory c.used_gpu_memory, ProcessType.Compute⟩ :
        GpuProcess) ∈ seedCompute rn cs := by
      unfold seedCompute
      exact List.mem_map_of_mem _ hcmem
    have hfind : gs.find? (fun q => decide (c.pid = q.pid)) = some g := by
      rw [hpideq]
      exact find?_key_unique hg hgmem
    have happ : applyGraphics gs (⟨c.pid, resolvedName rn c.pid,
        extract_gpu_memory c.used_gpu_memory, ProcessType.Compute⟩ :
        GpuProcess) =
        (⟨c.pid, resolvedName rn c.pid,
          max (extract_gpu_memory c.used_gpu_memory)
            (extract_gpu_memory g.used_gpu_memory), ProcessType.Mixed⟩ :
          GpuProcess) := by
      unfold applyGraphics
      dsimp only
      rw [hfind]
      simp [mixWith]
    exact happ ▸ List.mem_map_of_mem _ hseedmem
  · -- PID only in the compute list
    intro c hcmem hnot
    rw [List.Perm.mem_iff hpermout, hclosed]
    refine List.mem_append.mpr (Or.inl ?_)
    have hseedmem : (⟨c.pid, resolvedName rn c.pid,
        extract_gpu_memory c.used_gpu_memory, ProcessType.Compute⟩ :
        GpuProcess) ∈ seedCompute rn cs := by
      unfold seedCompute
      exact List.mem_map_of_mem _ hcmem
    have hfind : gs.find? (fun q => decide (c.pid = q.pid)) = none := by
      rw [List.find?_eq_none]
      intro q hq
      simp only [decide_eq_true_eq]
      intro hcq
      exact hnot (hcq ▸ List.mem_map_of_mem ProcSample.pid hq)
    have happ : applyGraphics gs (⟨c.pid, resolvedName rn c.pid,
        extract_gpu_memory c.used_gpu_memory, ProcessType.Compute⟩ :
        GpuProcess) =
        (⟨c.pid, resolvedName rn c.pid,
          extract_gpu_memory c.used_gpu_memory, ProcessType.Compute⟩ :
          GpuProcess) := by
      unfold applyGraphics
      dsimp only
      rw [hfind]
    exact happ ▸ List.mem_map_of_mem _ hseedmem
  · -- PID only in the graphics list
    intro g hgmem hnot
    rw [List.Perm.mem_iff hpermout, hclosed]
    refine List.mem_append.mpr (Or.inr ?_)
    have hkeep2 : ((seedCompute rn cs).any
        fun p => decide (p.pid = g.pid)) = false := by
      rw [hany g.pid]
      simp [hnot]
    have hkeep : (fun g2 => !((seedCompute rn cs).any
        fun p => decide (p.pid = g2.pid))) g = true := by
      simp only [hkeep2, Bool.not_false]
    have hfmem : g ∈ gs.filter fun g2 =>
        !((seedCompute rn cs).any fun p => decide (p.pid = g2.pid)) :=
      List.mem_filter.mpr ⟨hgmem, hkeep⟩
    exact List.mem_map_of_mem _ hfmem
  · -- disjoint PID sets: lengths add
    intro hdisj
    rw [List.Perm.length_eq hpermout, hclosed, List.length_append,
      List.length_map, List.length_map]
    have hfilter : (gs.filter fun g =>
        !((seedCompute rn cs).any fun p => decide (p.pid = g.pid))) = gs := by
      rw [List.filter_eq_self]
      intro g hgmem
      rw [hany g.pid]
      simp only [Bool.not_eq_true']
      rw [decide_eq_false_iff_not]
      intro hmem
      exact hdisj g.pid hmem (List.mem_map_of_mem ProcSample.pid hgmem)
    rw [hfilter]
    simp [seedCompute]

/-- Witness for C2: merging compute `{pid 10, mem 100}` with graphics
`{pid 10, mem 150}` yields exactly the single record
`{pid 10, Mixed, mem 150}`. -/
theorem process_merge_spec_witness :
    ({ pid := 10, name := "unknown", gpu_memory := 150,
       process_type := ProcessType.Mixed } : GpuProcess) ∈
      [({ pid := 10, name := "unknown", gpu_memory := 150,
          process_type := ProcessType.Mixed } : GpuProcess)] := by
  have hout : get_gpu_processes rn0
      (Except.ok [⟨10, UsedGpuMemory.used 100⟩])
      (Except.ok [⟨10, UsedGpuMemory.used 150⟩]) =
      Except.ok [(⟨10, "unknown", 150, ProcessType.Mixed⟩ : GpuProcess)] := by
    show Except.ok (sortProcesses
      [(⟨10, "unknown", 150, ProcessType.Mixed⟩ : GpuProcess)]) = _
    simp [sortProcesses]
  have h := (process_merge_spec rn0
      [⟨10, UsedGpuMemory.used 100⟩] [⟨10, UsedGpuMemory.used 150⟩]
      (by simp) (by simp) _ hout).2.1
      ⟨10, UsedGpuMemory.used 100⟩ (by simp)
      ⟨10, UsedGpuMemory.used 150⟩ (by simp) rfl
  exact h

/-- C1 counterexample: with every query succeeding except the utilization
query, `get_gpu_info` fails the whole per-device snapshot instead of
degrading the utilization field, because `utilization_rates()` is propagated
with `?` (monitor.rs line 100); the same holds for `memory_info()`
(line 92).  This refutes the claim that a failure of any individual metric
field query (including utilization and memory info) never fails the
snapshot. -/
theorem get_gpu_info_utilization_failure_is_fatal :
    get_gpu_info rn0 0 (Except.ok q0) =
      Except.error (Error.Nvml { code := 3 }) := rfl

/-- C1 (amended): for queries where name, uuid, PCI info, driver version,
memory info and utilization succeed, the snapshot is built successfully, and
a failure of any of the remaining per-field queries degrades only that
field: temperature, power usage, encoder/decoder utilization and the three
clocks default to 0, fan speed becomes absent, the power limit defaults to
0, the max power limit falls back to the configured power limit, and the
CUDA version becomes absent. -/
theorem get_gpu_info_field_degradation (rn : Nat → Option String)
    (index : Nat) (q : DeviceQueries) (nm uu pc dv : String)
    (mem : MemoryInfo) (ur : Utilization)
    (hn : q.name = Except.ok nm) (hu : q.uuid = Except.ok uu)
    (hp : q.pci_bus_id = Except.ok pc)
    (hd : q.sys_driver_version = Except.ok dv)
    (hm : q.memory_info = Except.ok mem)
    (hr : q.utilization_rates = Except.ok ur) :
    (get_gpu_info rn index (Except.ok q)).isOk = true ∧
    (∀ e, q.temperature = Except.error e →
      ((get_gpu_info rn index (Except.ok q)).toOption.map
        fun i => i.metrics.temperature) = some 0) ∧
    (∀ e, q.power_usage = Except.error e →
      ((get_gpu_info rn index (Except.ok q)).toOption.map
        fun i => i.metrics.power_usage) = some 0) ∧
    (∀ e, q.fan_speed = Except.error e →
      ((get_gpu_info rn index (Except.ok q)).toOption.map
        fun i => i.metrics.fan_speed) = some none) ∧
    (∀ e, q.encoder_utilization = Except.error e →
      ((get_gpu_info rn index (Except.ok q)).toOption.map
        fun i => i.metrics.encoder_utilization) = some 0) ∧
    (∀ e, q.decoder_utilization = Except.error e →
      ((get_gpu_info rn index (Except.ok q)).toOption.map
        fun i => i.metrics.decoder_utilization) = some 0) ∧
    (∀ e, q.clock_graphics = Except.error e →
      ((get_gpu_info rn index (Except.ok q)).toOption.map
        fun i => i.metrics.clock_graphics) = some 0) ∧
    (∀ e, q.clock_memory = Except.error e →
      ((get_gpu_info rn index (Except.ok q)).toOption.map
        fun i => i.metrics.clock_memory) = some 0) ∧
    (∀ e, q.clock_sm = Except.error e →
      ((get_gpu_info rn index (Except.ok q)).toOption.map
        fun i => i.metrics.clock_sm) = some 0) ∧
    (∀ e, q.power_management_limit = Except.error e →
      ((get_gpu_info rn index (Except.ok q)).toOption.map
        fun i => i.device.power_limit) = some 0) ∧
    (∀ e, q.power_management_limit_constraints_max = Except.error e →
      ((get_gpu_info rn index (Except.ok q)).toOption.map
        fun i => decide (i.device.power_limit_max = i.device.power_limit)) =
        some true) ∧
    (∀ e, q.sys_cuda_driver_version = Except.error e →
      ((get_gpu_info rn index (Except.ok q)).toOption.map
        fun i => i.device.cuda_version) = some none) := by
  refine ⟨?_, ?_, ?_, ?_, ?_, ?_, ?_, ?_, ?_, ?_, ?_, ?_⟩
  · simp only [get_gpu_info, hn, hu, hp, hd, hm, hr]
    rfl
  all_goals intro e he
  all_goals simp [get_gpu_info, hn, hu, hp, hd, hm, hr, get_gpu_processes,
    he, exceptD, Except.toOption, Except.map]

/-- Witness for C1 (amended) at the concrete query bundle `q1`, where all
degradable queries fail. -/
theorem get_gpu_info_field_degradation_witness :
    (get_gpu_info rn0 0 (Except.ok q1)).isOk = true ∧
    ((get_gpu_info rn0 0 (Except.ok q1)).toOption.map
      fun i => i.metrics.temperature) = some 0 ∧
    ((get_gpu_info rn0 0 (Except.ok q1)).toOption.map
      fun i => i.metrics.fan_speed) = some none ∧
    ((get_gpu_info rn0 0 (Except.ok q1)).toOption.map
      fun i => decide (i.device.power_limit_max = i.device.power_limit)) =
      some true ∧
    ((get_gpu_info rn0 0 (Except.ok q1)).toOption.map
      fun i => i.device.cuda_version) = some none := by
  have h := get_gpu_info_field_degradation rn0 0 q1 _ _ _ _ _ _
    rfl rfl rfl rfl rfl rfl
  exact ⟨h.1, h.2.1 { code := 6 } rfl, h.2.2.2.1 { code := 8 } rfl,
    h.2.2.2.2.2.2.2.2.2.2.1 { code := 3 } rfl,
    h.2.2.2.2.2.2.2.2.2.2.2 { code := 1 } rfl⟩

/-- Every error produced by `get_gpu_info` is an `Error.Nvml` wrapper: the
function can fail only through the queries propagated with `?`, and never
with `NoDevices`. -/
theorem get_gpu_info_error_nvml (rn : Nat → Option String) (index : Nat)
    (dev : Except NvmlErr DeviceQueries) (err : Error)
    (h : get_gpu_info rn index dev = Except.error err) :
    ∃ e, err = Error.Nvml e := by
  rcases dev with e | q
  · simp only [get_gpu_info, Except.error.injEq] at h
    exact ⟨e, h.symm⟩
  · rcases hn : q.name with e | nm
    · simp only [get_gpu_info, hn, Except.error.injEq] at h
      exact ⟨e, h.symm⟩
    rcases hu : q.uuid with e | uu
    · simp only [get_gpu_info, hn, hu, Except.error.injEq] at h
      exact ⟨e, h.symm⟩
    rcases hp : q.pci_bus_id with e | pc
    · simp only [get_gpu_info, hn, hu, hp, Except.error.injEq] at h
      exact ⟨e, h.symm⟩
    rcases hd : q.sys_driver_version with e | dv
    · simp only [get_gpu_info, hn, hu, hp, hd, Except.error.injEq] at h
      exact ⟨e, h.symm⟩
    rcases hm : q.memory_info with e | mem
    · simp only [get_gpu_info, hn, hu, hp, hd, hm, Except.error.injEq] at h
      exact ⟨e, h.symm⟩
    rcases hr : q.utilization_rates with e | ur
    · simp only [get_gpu_info, hn, hu, hp, hd, hm, hr,
        Except.error.injEq] at h
      exact ⟨e, h.symm⟩
    simp only [get_gpu_info, hn, hu, hp, hd, hm, hr, get_gpu_processes] at h
    exact Except.noConfusion h

/-- Every error produced by the device loop is an `Error.Nvml` wrapper. -/
theorem buildDevices_error_nvml (rn : Nat → Option String)
    (dbi : Nat → Except NvmlErr DeviceQueries) :
    ∀ (l : List Nat) (err : Error),
      buildDevices rn dbi l = Except.error err → ∃ e, err = Error.Nvml e := by
  intro l
  induction l with
  | nil =>
    intro err h
    simp [buildDevices] at h
  | cons i rest ih =>
    intro err h
    simp only [buildDevices] at h
    rcases h1 : get_gpu_info rn i (dbi i) with e1 | info
    · rw [h1] at h
      simp only [Except.error.injEq] at h
      exact get_gpu_info_error_nvml rn i (dbi i) err (by rw [h1, h])
    · rw [h1] at h
      rcases h2 : buildDevices rn dbi rest with e2 | infos
      · rw [h2] at h
        simp only [Except.error.injEq] at h
        exact ih err (by rw [h2, h])
      · rw [h2] at h
        simp at h

/-- C8: building the snapshot set fails with the distinguishable
`NoDevices` error exactly when enumeration succeeds with zero devices, and
with the distinguishable `Nvml` (provider) error when enumeration itself
fails; both abort the refresh cycle (the error propagates out of
`refresh_data` unchanged rather than being retried) and translate to a
nonzero process exit. -/
theorem snapshot_error_taxonomy :
    (∀ (rn : Nat → Option String)
      (dbi : Nat → Except NvmlErr DeviceQueries),
      get_all_gpu_info rn (Except.ok 0) dbi =
        Except.error Error.NoDevices) ∧
    (∀ (rn : Nat → Option String) (dc : Except NvmlErr Nat)
      (dbi : Nat → Except NvmlErr DeviceQueries),
      get_all_gpu_info rn dc dbi = Except.error Error.NoDevices →
        dc = Except.ok 0) ∧
    (∀ (rn : Nat → Option String) (e : NvmlErr)
      (dbi : Nat → Except NvmlErr DeviceQueries),
      get_all_gpu_info rn (Except.error e) dbi =
        Except.error (Error.Nvml e)) ∧
    (∀ (st : App) (e : Error),
      App.refresh_data st (Except.error e) = Except.error e) ∧
    (∀ msg : String, GpuMonitor.new (Except.error msg) =
      Except.error (Error.NvmlInit msg)) ∧
    (∀ e : Error, processExitCode (Except.error e) ≠ 0) := by
  refine ⟨?_, ?_, ?_, ?_, ?_, ?_⟩
  · intro rn dbi
    simp [get_all_gpu_info]
  · intro rn dc dbi h
    rcases dc with e | n
    · simp only [get_all_gpu_info, Except.error.injEq] at h
      exact absurd h (by simp)
    · simp only [get_all_gpu_info] at h
      by_cases hn : n = 0
      · rw [hn]
      · rw [if_neg hn] at h
        obtain ⟨e2, he2⟩ := buildDevices_error_nvml rn dbi (List.range n) _ h
        exact absurd he2 (by simp)
  · intro rn e dbi
    simp [get_all_gpu_info]
  · intro st e
    rfl
  · intro msg
    rfl
  · intro e
    simp [processExitCode]

/-- Witness for C8: a zero-device enumeration produces exactly the
`NoDevices` error, and conversely. -/
theorem snapshot_error_taxonomy_witness :
    get_all_gpu_info rn0 (Except.ok 0)
      (fun _ => Except.error { code := 0 }) =
      Except.error Error.NoDevices ∧
    (Except.ok 0 : Except NvmlErr Nat) = Except.ok 0 :=
  ⟨snapshot_error_taxonomy.1 rn0 (fun _ => Except.error { code := 0 }),
   snapshot_error_taxonomy.2.1 rn0 (Except.ok 0)
     (fun _ => Except.error { code := 0 })
     (snapshot_error_taxonomy.1 rn0 (fun _ => Except.error { code := 0 }))⟩

end GpuMon
